import Mathlib

/-
Shallow embedding of the structured task-region core
(src/hpx/parallel/task_region.hpp) and of the sender/receiver
capability layer (src/libs/basic_execution/include/hpx/basic_execution/sender.hpp).

Task-region side: tasks are modelled by their eventual outcome, an
`Option Exc` (`none` = completed without error, `some e` = the future
carries the captured exception `e`).  A `task_region_handle` holds the
vector `tasks_` of futures registered via `run`.  `when`, `wait` and the
entry points mirror the control flow of the source line by line; the
raised-or-returned outcome of a call is an `Option Exc` (`none` = normal
return).

Sender/receiver side: the C++ layer is purely type-level, so each trait
is embedded as a boolean function of the type-level facts it inspects
(move-constructibility, presence of the nested sender types, validity of
each connect expression, ...), with one definition per C++ trait.
-/

namespace HpxSpec

/-- Exceptions as seen by the task-region code: `plain n` is an arbitrary
non-list exception (identified by a tag), `taskCanceled` is
`task_canceled_exception`, and `elist es` is a `parallel::exception_list`
holding the captured exception pointers `es`. -/
inductive Exc where
  | plain : Nat → Exc
  | taskCanceled : Exc
  | elist : List Exc → Exc

/-- A `parallel::exception_list` as stored by the aggregation code: the
ordered sequence of captured `boost::exception_ptr`s. -/
abbrev ExceptionList := List Exc

/-- `exception_list::add`: appends one captured exception pointer. -/
def ExceptionList.add (errors : ExceptionList) (e : Exc) : ExceptionList :=
  errors ++ [e]

/-- `exception_list::get_error_count()`. -/
def get_error_count (errors : ExceptionList) : Nat :=
  errors.length

/-- `detail::handle_task_region_exceptions` (task_region.hpp lines 30-42):
rethrows the current exception; a caught `parallel::exception_list` has its
elements added one by one, any other exception is added as a single
pointer. -/
def handle_task_region_exceptions (errors : ExceptionList) (e : Exc) : ExceptionList :=
  match e with
  | Exc.elist el => el.foldl ExceptionList.add errors
  | e => errors.add e

/-- The state of a `task_region_handle`: the vector `tasks_` of futures
registered by `run`, each given by its eventual outcome. -/
structure task_region_handle where
  tasks_ : List (Option Exc)

/-- The continuation passed to `hpx::lcos::local::dataflow` inside
`task_region_handle::when` (lines 136-147): every completed future that
carries an exception has its exception pointer added to `errors`; if the
count is non-zero the aggregated list is thrown (so the future produced by
the dataflow carries it), otherwise the future completes without error. -/
def dataflow_join (results : List (Option Exc)) (errors : ExceptionList) : Option Exc :=
  let errs := results.foldl
    (fun acc f =>
      match f with
      | some e => acc.add e
      | none => acc)
    errors
  if get_error_count errs > 0 then some (Exc.elist errs) else none

/-- `task_region_handle::when(exception_list&&)` (lines 124-148): swaps the
pending list for an empty one under the lock, returns a ready (error-free)
future when the swapped-out list is empty, and otherwise the dataflow
future joining every swapped-out task.  Result: the handle after the swap,
and the outcome eventually carried by the returned future. -/
def when (h : task_region_handle) (errors : ExceptionList) :
    task_region_handle × Option Exc :=
  let active := h.tasks_
  let h2 : task_region_handle := ⟨[]⟩
  if active.isEmpty then (h2, none)
  else (h2, dataflow_join active errors)

/-- `task_region_handle::run` (lines 187-194): spawns the callable through
`hpx::async` (the task's eventual outcome is `t`) and appends the resulting
future to `tasks_` under the lock.  Second component: the exception raised
by the call to `run` itself, which is always `none` in the source. -/
def run (t : Option Exc) (h : task_region_handle) :
    task_region_handle × Option Exc :=
  (⟨h.tasks_ ++ [t]⟩, none)

/-- The try/catch dispatch inside `task_region_handle::wait`
(lines 220-233) applied to the outcome obtained from `when().get()`:
a caught `parallel::exception_list` is rethrown unchanged, any other
exception is wrapped into a one-element `parallel::exception_list`. -/
def wait_dispatch : Option Exc → Option Exc
  | none => none
  | some (Exc.elist es) => some (Exc.elist es)
  | some e => some (Exc.elist [e])

/-- `task_region_handle::wait` (lines 220-233): joins via `when()` with an
empty aggregator and applies the try/catch dispatch to whatever escapes the
join. -/
def wait (h : task_region_handle) : task_region_handle × Option Exc :=
  let r := when h []
  (r.1, wait_dispatch r.2)

/-- The errors collected from the user body by the entry points: a body
that threw `e` has it captured by `detail::handle_task_region_exceptions`
into the fresh aggregator, a body that returned normally contributes
nothing. -/
def bodyErrors (bodyErr : Option Exc) : ExceptionList :=
  match bodyErr with
  | some e => handle_task_region_exceptions [] e
  | none => []

/-- The blocking entry point `task_region(F&&)` (lines 259-283), applied to
a body that registers the tasks `spawned` (given by their outcomes) on the
handle and finishes with outcome `bodyErr`: any body exception is captured,
`trh.wait()` is called regardless and its exception captured into the same
aggregator, and a non-empty aggregator is finally thrown.  Result: the
exception raised by the entry point (`none` = normal return). -/
def task_region (spawned : List (Option Exc)) (bodyErr : Option Exc) :
    Option Exc :=
  let errors := bodyErrors bodyErr
  let waitRes := (wait ⟨spawned⟩).2
  let errors2 :=
    match waitRes with
    | some e => handle_task_region_exceptions errors e
    | none => errors
  if get_error_count errors2 > 0 then some (Exc.elist errors2) else none

/-- `task_region_final(F&&)` (lines 304-310): delegates to the blocking
`task_region`. -/
def task_region_final (spawned : List (Option Exc)) (bodyErr : Option Exc) :
    Option Exc :=
  task_region spawned bodyErr

/-- The future-returning entry point
`task_region(task_execution_policy const&, F&&)` (lines 339-353): captures
a body exception into the aggregator and returns `trh.when(move(errors))`.
Result: the outcome eventually carried by the returned future. -/
def task_region_policy (spawned : List (Option Exc)) (bodyErr : Option Exc) :
    Option Exc :=
  (when ⟨spawned⟩ (bodyErrors bodyErr)).2

/-- Number of tasks in a registration list whose future captured an
exception. -/
def countFailed (spawned : List (Option Exc)) : Nat :=
  (spawned.filterMap id).length

/-- Number of causes a caller can enumerate in an outcome: the length of a
surfaced `exception_list`, zero for a normal return. -/
def causeCount : Option Exc → Nat
  | none => 0
  | some (Exc.elist es) => es.length
  | some _ => 1

/-- Does the outcome respect the wait contract of always being either a
normal return or a `parallel::exception_list`? -/
def isElistOpt : Option Exc → Bool
  | none => true
  | some (Exc.elist _) => true
  | some _ => false

-- Helper lemmas

theorem foldl_add_eq_append (es : List Exc) (errors : ExceptionList) :
    es.foldl ExceptionList.add errors = errors ++ es := by
  induction es generalizing errors with
  | nil => simp
  | cons e es ih => simp [ExceptionList.add, ih]

theorem foldl_collect_eq_append (ts : List (Option Exc)) (errors : ExceptionList) :
    ts.foldl
      (fun acc f =>
        match f with
        | some e => acc.add e
        | none => acc)
      errors = errors ++ ts.filterMap id := by
  induction ts generalizing errors with
  | nil => simp
  | cons t ts ih =>
    cases t with
    | none => simpa using ih errors
    | some e =>
      rw [List.foldl_cons, ih]
      simp [ExceptionList.add]

theorem handle_elist_eq (errors : ExceptionList) (es : List Exc) :
    handle_task_region_exceptions errors (Exc.elist es) = errors ++ es := by
  simp [handle_task_region_exceptions, foldl_add_eq_append]

theorem dataflow_join_eq (ts : List (Option Exc)) (errors : ExceptionList) :
    dataflow_join ts errors =
      (if (errors ++ ts.filterMap id).length > 0
       then some (Exc.elist (errors ++ ts.filterMap id)) else none) := by
  simp [dataflow_join, get_error_count, foldl_collect_eq_append]

/-
Sender/receiver capability layer (sender.hpp).  Each C++ trait is a
boolean function of the type-level facts it inspects.
-/

/-- The type-level facts about a candidate sender type that
sender.hpp inspects: move-constructibility of the decayed type
(`std::is_move_constructible`, line 181) and the presence of the three
nested members probed by `detail::has_value_types`,
`detail::has_error_types` and `detail::has_sends_done`
(lines 239-276). -/
structure SenderCand where
  move_constructible : Bool
  has_value_types : Bool
  has_error_types : Bool
  has_sends_done : Bool

/-- `detail::has_sender_types` (lines 278-285). -/
def has_sender_types (s : SenderCand) : Bool :=
  s.has_value_types && s.has_error_types && s.has_sends_done

/-- Whether `sender_traits<Sender>` exposes the `__unspecialized` marker:
the primary template derives from
`detail::sender_traits_base<has_sender_types, Sender>` (lines 287-318),
whose `false` specialization holds `using __unspecialized = void`. -/
def sender_traits_unspecialized (s : SenderCand) : Bool :=
  !(has_sender_types s)

/-- `traits::detail::specialized<Sender>` (lines 163-176): the overload
taking a `sender_traits<Sender>::__unspecialized*` is picked exactly when
that marker type exists and returns false; the variadic fallback returns
true. -/
def specialized (s : SenderCand) : Bool :=
  !(sender_traits_unspecialized s)

/-- `traits::is_sender` (lines 178-185). -/
def is_sender (s : SenderCand) : Bool :=
  s.move_constructible && specialized s

/-- The nine `hpx::traits::is_callable` facts consulted by
`is_sender_to_impl` (lines 199-222): whether `connect_t` is invocable with
the sender passed as rvalue (`v`), lvalue (`r`) or const lvalue (`c`) and
likewise the receiver (first letter: sender, second: receiver). -/
structure CallMatrix where
  vv : Bool
  vr : Bool
  vc : Bool
  rv : Bool
  rr : Bool
  rc : Bool
  cv : Bool
  cr : Bool
  cc : Bool

/-- `traits::detail::is_sender_to_impl` (lines 190-222): the `false`
specialization is `false_type`; the `true` specialization is the
disjunction of the nine `is_callable` facts. -/
def is_sender_to_impl (isSenderReceiver : Bool) (m : CallMatrix) : Bool :=
  if isSenderReceiver then
    m.vv || m.vr || m.vc || m.rv || m.rr || m.rc || m.cv || m.cr || m.cc
  else false

/-- `traits::is_sender_to` (lines 225-231): dispatches on
`is_sender_v && is_receiver_v`. -/
def is_sender_to (sender_ok receiver_ok : Bool) (m : CallMatrix) : Bool :=
  is_sender_to_impl (sender_ok && receiver_ok) m

/-- Modelled from the spec's words for comparison: the compatibility trait
as the claim states it, requiring Connect to be invocable for every one of
the nine sender/receiver passing combinations. -/
def is_sender_to_claim (sender_ok receiver_ok : Bool) (m : CallMatrix) : Bool :=
  sender_ok && receiver_ok &&
    (m.vv && m.vr && m.vc && m.rv && m.rr && m.rc && m.cv && m.cr && m.cc)

/-- The type-level facts about a (sender, receiver) pair that the
`connect_t` call operator inspects (lines 88-159): whether
`traits::is_sender` holds for the sender (the only `operation_select`
overload requires `std::true_type`), whether
`hpx::functional::is_tag_invocable<connect_t, Sender&&, Receiver&&>`
holds, whether the member expression `sender.connect(receiver)` is
well-formed, and whether each candidate expression's result type satisfies
`traits::is_operation_state_v`. -/
structure ConnectCfg where
  is_sender_ok : Bool
  tag_invocable : Bool
  tag_result_is_op_state : Bool
  member_connect_valid : Bool
  member_result_is_op_state : Bool

/-- Validity of the `tag_invoke_impl` dispatch (lines 93-115): the
`true_type` overload uses the tag_invoke expression (valid by assumption
of `is_tag_invocable`), the `false_type` overload requires the member
`connect` expression to be well-formed. -/
def tag_invoke_impl_valid (c : ConnectCfg) : Bool :=
  if c.tag_invocable then true else c.member_connect_valid

/-- Whether the result type of the dispatched connect expression satisfies
the operation-state capability checked by the `static_assert`
(lines 151-155). -/
def connect_result_is_op_state (c : ConnectCfg) : Bool :=
  if c.tag_invocable then c.tag_result_is_op_state
  else c.member_result_is_op_state

/-- Whether `connect(sender, receiver)` type-checks, per the `connect_t`
call operator (lines 144-158): `operation_select` is only viable when
`traits::is_sender` holds, the chosen `tag_invoke_impl` branch must be
well-formed, and the `static_assert` rejects any result type that is not
an operation state. -/
def connect_type_checks (c : ConnectCfg) : Bool :=
  c.is_sender_ok && (tag_invoke_impl_valid c && connect_result_is_op_state c)

/-- Modelled from the spec's words for comparison: `connect` type-checks
iff a dispatch path exists (customization first, else the sender's own
connect method) and the chosen expression's result satisfies the
operation-state capability — with no further condition. -/
def connect_type_checks_claim (c : ConnectCfg) : Bool :=
  tag_invoke_impl_valid c && connect_result_is_op_state c

/-- Normal form of wait: its outcome is the exception_list of the captured
errors of the failed tasks registered before the swap, or a normal return
when none failed. -/
theorem wait_eq (h : task_region_handle) :
    (wait h).2 =
      (if (h.tasks_.filterMap id).length > 0
       then some (Exc.elist (h.tasks_.filterMap id))
       else none) := by
  by_cases hE : h.tasks_.isEmpty
  · have h0 : h.tasks_ = [] := by simpa [List.isEmpty_iff] using hE
    simp [wait, when, hE, h0, wait_dispatch]
  · by_cases hF : 0 < (h.tasks_.filterMap id).length
    · simp [wait, when, hE, dataflow_join_eq, get_error_count, hF, wait_dispatch]
    · simp [wait, when, hE, dataflow_join_eq, get_error_count, hF, wait_dispatch]

/-- Normal form of the blocking entry point: the surfaced outcome is the
body's captured errors followed by the captured error of every failed
spawned task, raised as one exception_list when non-empty. -/
theorem task_region_eq (spawned : List (Option Exc)) (b : Option Exc) :
    task_region spawned b =
      (if (bodyErrors b ++ spawned.filterMap id).length > 0
       then some (Exc.elist (bodyErrors b ++ spawned.filterMap id))
       else none) := by
  have hw := wait_eq ⟨spawned⟩
  by_cases hF : 0 < (spawned.filterMap id).length
  · simp only [task_region, hw]
    simp [hF, handle_elist_eq, get_error_count]
  · have h0 : spawned.filterMap id = [] := by
      simpa [List.length_eq_zero] using Nat.le_zero.mp (Nat.not_lt.mp hF)
    simp only [task_region, hw]
    simp [hF, h0, get_error_count]

/-- Claim C1: the join performed by a call to wait covers exactly the tasks
registered on the handle before the swap — the future returned by when
aggregates the captured error of every failed task among them and becomes
an error-free ready future only when none failed — while the post-swap
handle starts with an empty pending list, so a task registered afterwards
(via run) belongs to a fresh generation not included in that join. -/
theorem C1_swap_and_join (h : task_region_handle) (errors : ExceptionList)
    (t : Option Exc) :
    ((when h errors).1.tasks_ = []) ∧
    ((when h errors).2 =
      if h.tasks_.isEmpty then none
      else if (errors ++ h.tasks_.filterMap id).length > 0
        then some (Exc.elist (errors ++ h.tasks_.filterMap id))
        else none) ∧
    ((wait h).1.tasks_ = []) ∧
    ((run t (wait h).1).1.tasks_ = [t]) := by
  refine ⟨?_, ?_, ?_, ?_⟩
  · by_cases hE : h.tasks_.isEmpty <;> simp [when, hE]
  · by_cases hE : h.tasks_.isEmpty <;> simp [when, hE, dataflow_join_eq]
  · by_cases hE : h.tasks_.isEmpty <;> simp [wait, when, hE]
  · by_cases hE : h.tasks_.isEmpty <;> simp [run, wait, when, hE]

/-- Claim C2: if exactly K of the spawned tasks fail, the blocking entry
point surfaces a composite error with exactly K causes, plus one more when
the body itself raised; with no body error it returns normally precisely
when no task failed, and with a body error it never returns normally. -/
theorem C2_cause_counts (spawned : List (Option Exc)) (n : Nat) :
    causeCount (task_region spawned none) = countFailed spawned ∧
    causeCount (task_region spawned (some (Exc.plain n))) =
      countFailed spawned + 1 ∧
    (task_region spawned none).isNone = (countFailed spawned == 0) ∧
    (task_region spawned (some (Exc.plain n))).isNone = false := by
  have hnone := task_region_eq spawned none
  have hbody := task_region_eq spawned (some (Exc.plain n))
  simp only [bodyErrors, handle_task_region_exceptions, ExceptionList.add,
    List.nil_append] at hnone hbody
  refine ⟨?_, ?_, ?_, ?_⟩
  · rw [hnone]
    by_cases hF : (spawned.filterMap id).length > 0
    · rw [if_pos hF]
      rfl
    · rw [if_neg hF]
      have : (spawned.filterMap id).length = 0 := Nat.le_zero.mp (Nat.not_lt.mp hF)
      simp [causeCount, countFailed, this]
  · rw [hbody]
    rw [if_pos (by simp)]
    simp [causeCount, countFailed, Nat.add_comm]
  · rw [hnone]
    by_cases hF : (spawned.filterMap id).length > 0
    · rw [if_pos hF]
      have : ¬ (spawned.filterMap id).length = 0 := by omega
      simp [countFailed, Nat.beq_eq_true_eq, this]
    · rw [if_neg hF]
      have : (spawned.filterMap id).length = 0 := Nat.le_zero.mp (Nat.not_lt.mp hF)
      simp [countFailed, this]
  · rw [hbody]
    rw [if_pos (by simp)]
    rfl

/-- Claim C3 (evaluation at the failing input): when the body raises one
error but spawns no tasks, the future returned by the policy entry point
completes with no error at all — when() returns a ready future and
discards the non-empty aggregator — whereas with at least one (successful)
spawned task the same body error is duly delivered through the future. -/
theorem C3_policy_drops_body_error :
    task_region_policy [] (some (Exc.plain 0)) = none ∧
    task_region_policy [none] (some (Exc.plain 0)) =
      some (Exc.elist [Exc.plain 0]) := by
  constructor <;> rfl

/-- Claim C4 (counterexample): a pair for which connect is invocable in
exactly one of the nine passing combinations is classified compatible by
is_sender_to, while the claim's all-nine-combinations reading classifies
it incompatible. -/
theorem C4_counterexample :
    is_sender_to true true
        ⟨true, false, false, false, false, false, false, false, false⟩ = true ∧
    is_sender_to_claim true true
        ⟨true, false, false, false, false, false, false, false, false⟩ = false := by
  constructor <;> rfl

/-- Claim C4 (amended): is_sender_to is true iff both capability
classifications hold and the connect operation is invocable for at least
one — not every one — of the nine combinations of passing the sender and
the receiver by value, by mutable reference and by read-only reference. -/
theorem C4_amended_any_combination (s r : Bool) (m : CallMatrix) :
    is_sender_to s r m =
      (s && r &&
        (m.vv || m.vr || m.vc || m.rv || m.rr || m.rc || m.cv || m.cr || m.cc)) := by
  cases s <;> cases r <;> simp [is_sender_to, is_sender_to_impl]

/-- Claim C5 (counterexample): on a handle whose region already has a
pending error (a registered task has failed), run returns normally after
appending the new task, and wait raises the aggregated exception_list —
neither call raises task_canceled_exception. -/
theorem C5_counterexample :
    (run none ⟨[some (Exc.plain 0)]⟩).2 = none ∧
    (run none ⟨[some (Exc.plain 0)]⟩).1.tasks_ = [some (Exc.plain 0), none] ∧
    (wait ⟨[some (Exc.plain 0)]⟩).2 = some (Exc.elist [Exc.plain 0]) := by
  refine ⟨rfl, rfl, rfl⟩

/-- Claim C5 (amended): run and wait never raise task_canceled_exception —
the type is defined but no call site throws it; run always returns
normally after appending the spawned task, and wait only ever returns
normally or raises a parallel::exception_list aggregating the pending
failures. -/
theorem C5_amended_never_cancels (t : Option Exc) (h : task_region_handle) :
    (run t h).2 = none ∧
    (run t h).1.tasks_ = h.tasks_ ++ [t] ∧
    isElistOpt (wait h).2 = true := by
  refine ⟨rfl, rfl, ?_⟩
  show isElistOpt (wait_dispatch (when h []).2) = true
  cases hfut : (when h []).2 with
  | none => rfl
  | some e => cases e <;> rfl

/-- Claim C6 (counterexample): a single task failing with an aggregator of
two errors yields a surfaced composite whose only cause is itself an
aggregator — the collection step inside the join appends the nested
exception_list as one opaque element instead of flattening it. -/
theorem C6_counterexample :
    task_region [some (Exc.elist [Exc.plain 0, Exc.plain 1])] none =
      some (Exc.elist [Exc.elist [Exc.plain 0, Exc.plain 1]]) := by
  rfl

/-- Claim C6 (amended): flattening happens only where
handle_task_region_exceptions merges a caught exception into the entry
point's aggregator — a caught aggregator has its elements appended
individually and any other object is appended as one opaque error — but
when the join inside wait collects the completions' errors each captured
exception is appended as-is, so a task that failed with an aggregator
produces a nested aggregator cause in the surfaced composite. -/
theorem C6_amended_flatten_only_at_entry (errors : ExceptionList)
    (es : List Exc) (n : Nat) :
    handle_task_region_exceptions errors (Exc.elist es) = errors ++ es ∧
    handle_task_region_exceptions errors (Exc.plain n) = errors ++ [Exc.plain n] ∧
    dataflow_join [some (Exc.elist es)] errors =
      some (Exc.elist (errors ++ [Exc.elist es])) := by
  refine ⟨handle_elist_eq errors es, rfl, ?_⟩
  rw [dataflow_join_eq]
  simp

/-- Claim C7 (counterexample): a pair whose sender type does not satisfy
the Sender capability but has a registered tag_invoke customization
returning an operation state is rejected by connect (no viable
operation_select overload), while the claim's two-conditions-only reading
accepts it. -/
theorem C7_counterexample :
    connect_type_checks ⟨false, true, true, false, false⟩ = false ∧
    connect_type_checks_claim ⟨false, true, true, false, false⟩ = true := by
  constructor <;> rfl

/-- Claim C7 (amended): connect(s, r) type-checks iff the sender type
satisfies the Sender capability AND a dispatch path exists — the
tag_invoke customization when registered, otherwise the sender's own
connect method — AND the chosen expression's result type satisfies the
operation-state capability; the dispatch order and static rejection are as
the claim states, but the Sender capability is an additional necessary
condition. -/
theorem C7_amended_requires_sender (c : ConnectCfg) :
    connect_type_checks c = (c.is_sender_ok && connect_type_checks_claim c) ∧
    connect_type_checks c =
      (c.is_sender_ok &&
        (if c.tag_invocable then c.tag_result_is_op_state
         else c.member_connect_valid && c.member_result_is_op_state)) := by
  obtain ⟨a, b, d, e, f⟩ := c
  cases a <;> cases b <;> cases d <;> cases e <;> cases f <;>
    exact ⟨rfl, rfl⟩

/-- Claim C8: the Sender capability query is true iff the candidate type
is move-constructible and the sender_traits lookup finds the three nested
members (value types, error types, done flag); when they are absent the
traits expose the __unspecialized marker, which detail::specialized turns
into a plain false classification rather than a hard failure. -/
theorem C8_is_sender_characterization (s : SenderCand) :
    is_sender s = (s.move_constructible && has_sender_types s) ∧
    sender_traits_unspecialized s = !(has_sender_types s) ∧
    (sender_traits_unspecialized s && is_sender s) = false := by
  obtain ⟨a, b, c, d⟩ := s
  cases a <;> cases b <;> cases c <;> cases d <;> exact ⟨rfl, rfl, rfl⟩

/-- Claim C10: whatever outcome escapes the join inside wait, the
exception wait propagates is always a parallel::exception_list — a caught
exception_list is rethrown unchanged, any other exception is wrapped into
a one-element exception_list — so a caller of wait never observes a bare
non-list exception. -/
theorem C10_wait_always_exception_list (fut : Option Exc) (es : List Exc)
    (n : Nat) (h : task_region_handle) :
    isElistOpt (wait_dispatch fut) = true ∧
    wait_dispatch (some (Exc.elist es)) = some (Exc.elist es) ∧
    wait_dispatch (some (Exc.plain n)) = some (Exc.elist [Exc.plain n]) ∧
    wait_dispatch (some Exc.taskCanceled) =
      some (Exc.elist [Exc.taskCanceled]) ∧
    (wait h).2 = wait_dispatch (when h []).2 := by
  refine ⟨?_, rfl, rfl, rfl, rfl⟩
  cases fut with
  | none => rfl
  | some e => cases e <;> rfl

end HpxSpec
